import Mathlib

/-!
Verification of the remote-design-flow backend: a shallow embedding of the
row-level-security policies, the privileged SQL functions
(`get_user_role`, `update_user_role`, `send_notification`) and the dashboard
task-status flows, together with theorems settling the specification's claims.

Tables are lists of rows; `auth.uid()` is an `Option Uid` (NULL for an
anonymous request); SQL three-valued logic is made explicit: a comparison
involving NULL is never true.
-/

abbrev Uid := Nat

/-- A row of `public.profiles` (the columns the policies and procedures touch:
`id`, `role`, `updated_at`). -/
structure Profile where
  id : Uid
  role : String
  updated_at : Nat
deriving DecidableEq

/-- A row of `public.notifications` as created in the tasks migration. -/
structure Notification where
  id : Nat
  user_id : Uid
  title : String
  message : String
  type : String
  read : Bool
  task_id : Option Nat
  created_at : Nat
deriving DecidableEq

/-- A row of `public.tasks` as created in the tasks migration. -/
structure TaskRow where
  id : Nat
  title : String
  description : Option String
  reference_image_url : Option String
  assigned_to : Option Uid
  assigned_by : Uid
  status : String
  priority : String
  due_date : Option Nat
  completed_design_url : Option String
  completed_at : Option Nat
  created_at : Nat
  updated_at : Nat
deriving DecidableEq

/-- A row of `public.designs`. -/
structure Design where
  id : Nat
  name : String
  description : String
  image_url : String
  user_id : Uid
  created_at : Nat
deriving DecidableEq

/-- A row of `storage.objects` (the columns the storage policies consult). -/
structure StorageObject where
  bucket_id : String
  name : String
deriving DecidableEq

/-- Database state: the four application tables plus a counter supplying
fresh notification ids (standing in for `gen_random_uuid()`). -/
structure DB where
  profiles : List Profile
  notifications : List Notification
  tasks : List TaskRow
  designs : List Design
  nextNotifId : Nat
deriving DecidableEq

/-- SQL `a != b` for a possibly-NULL left operand: under three-valued logic
`NULL != b` is NULL, which an `IF` treats as not true. -/
def sqlNeStr (a : Option String) (b : String) : Bool :=
  match a with
  | some x => x != b
  | none => false

/-- SQL `a = b` where either operand may be NULL: true only when both are
non-NULL and equal. -/
def sqlEqStr (a : Option String) (b : Option String) : Bool :=
  match a, b with
  | some x, some y => x == y
  | _, _ => false

/-- SQL `a = b` on possibly-NULL uuid operands. -/
def sqlEqUid (a : Option Uid) (b : Option Uid) : Bool :=
  match a, b with
  | some x, some y => x == y
  | _, _ => false

/-- Function `public.get_user_role(user_id)`: `SELECT role FROM public.profiles WHERE
id = user_id` under `SECURITY DEFINER`. A NULL argument matches no row, and a
missing profile yields NULL. -/
def get_user_role (db : DB) (user_id : Option Uid) : Option String :=
  match user_id with
  | none => none
  | some u => (db.profiles.find? (fun p => p.id == u)).map (fun p => p.role)

/-- The two `RAISE EXCEPTION` sites of `public.update_user_role`:
"Only admins can update user roles" (authorization) and
"Invalid role: %" (validation). -/
inductive RoleUpdateError where
  | notAdmin
  | invalidRole (r : String)
deriving DecidableEq

/-- The audit notification row inserted by `update_user_role`. -/
def roleUpdateNotif (nid : Nat) (now : Nat) (target : Uid) (new_role : String) :
    Notification :=
  { id := nid
    user_id := target
    title := "Role Updated"
    message := "Your role has been updated to: " ++ new_role
    type := "info"
    read := false
    task_id := none
    created_at := now }

/-- Function `public.update_user_role(target_user_id, new_role)`: reads the caller's
role (NULL when the caller has no profile row), raises unless the inequality
test against 'admin' fails to be true, validates `new_role`, then updates the
target's role and `updated_at` and inserts the audit notification, returning
`true`. -/
def update_user_role (db : DB) (now : Nat) (authUid : Option Uid)
    (target_user_id : Uid) (new_role : String) :
    Except RoleUpdateError (DB × Bool) :=
  let current_user_role : Option String :=
    match authUid with
    | none => none
    | some u => (db.profiles.find? (fun p => p.id == u)).map (fun p => p.role)
  if sqlNeStr current_user_role "admin" then
    .error .notAdmin
  else if !(new_role == "admin" || new_role == "designer") then
    .error (.invalidRole new_role)
  else
    let profiles' := db.profiles.map (fun p =>
      if p.id == target_user_id then { p with role := new_role, updated_at := now }
      else p)
    .ok ({ db with
            profiles := profiles'
            notifications :=
              db.notifications ++ [roleUpdateNotif db.nextNotifId now target_user_id new_role]
            nextNotifId := db.nextNotifId + 1 }, true)

/-- Running `update_user_role` as a single transaction: a raised exception aborts
the call and rolls back every effect; a normal return commits them together. -/
def runRoleUpdateTx (db : DB) (now : Nat) (authUid : Option Uid)
    (target_user_id : Uid) (new_role : String) : DB × Option Bool :=
  match update_user_role db now authUid target_user_id new_role with
  | .ok (db', b) => (db', some b)
  | .error _ => (db, none)

/-- Function `public.send_notification(p_user_id, p_title, p_message, p_type, p_task_id)`:
privileged insert of a notification row, returning the fresh id. -/
def send_notification (db : DB) (now : Nat) (p_user_id : Uid) (p_title : String)
    (p_message : String) (p_type : String) (p_task_id : Option Nat) : DB × Nat :=
  let nid := db.nextNotifId
  ({ db with
      notifications := db.notifications ++
        [{ id := nid, user_id := p_user_id, title := p_title, message := p_message,
           type := p_type, read := false, task_id := p_task_id, created_at := now }]
      nextNotifId := nid + 1 }, nid)

/-- The command tag of a policy or request: SELECT, INSERT, UPDATE, DELETE,
or (for a policy) ALL. -/
inductive PgCmd where
  | select
  | insert
  | update
  | delete
  | all
deriving DecidableEq

/-- A row-level-security policy: its name, command tag, target role
(`TO authenticated`, or the default that also covers anonymous requests), and
the USING / WITH CHECK predicates over the database, `auth.uid()` and a row. -/
structure Policy (Row : Type) where
  name : String
  cmd : PgCmd
  toAuthenticated : Bool
  usingPred : DB → Option Uid → Row → Bool
  checkPred : DB → Option Uid → Row → Bool

/-- Whether a policy tagged `c` applies to a request tagged `op`. -/
def cmdApplies (c : PgCmd) (op : PgCmd) : Bool :=
  c == .all || c == op

/-- Whether the policy's role list covers the request: `TO authenticated`
requires a non-NULL `auth.uid()`; the default covers every request. -/
def roleApplies {Row : Type} (p : Policy Row) (uid : Option Uid) : Bool :=
  !p.toAuthenticated || uid.isSome

/-- Permissive-policy row visibility: some applicable policy's USING predicate
is true of the row (policies combine by OR). -/
def usingAllowed {Row : Type} (ps : List (Policy Row)) (op : PgCmd) (db : DB)
    (uid : Option Uid) (row : Row) : Bool :=
  ps.any (fun p => cmdApplies p.cmd op && roleApplies p uid && p.usingPred db uid row)

/-- Permissive-policy new-row admission: some applicable policy's WITH CHECK
predicate is true of the row. -/
def checkAllowed {Row : Type} (ps : List (Policy Row)) (op : PgCmd) (db : DB)
    (uid : Option Uid) (row : Row) : Bool :=
  ps.any (fun p => cmdApplies p.cmd op && roleApplies p uid && p.checkPred db uid row)

/-- A SELECT request may return `row` iff some applicable policy admits it. -/
def selectAllowed {Row : Type} (ps : List (Policy Row)) (db : DB)
    (uid : Option Uid) (row : Row) : Bool :=
  usingAllowed ps .select db uid row

/-- An INSERT of `row` is admitted iff some applicable policy's WITH CHECK
accepts it. -/
def insertAllowed {Row : Type} (ps : List (Policy Row)) (db : DB)
    (uid : Option Uid) (row : Row) : Bool :=
  checkAllowed ps .insert db uid row

/-- An UPDATE taking `oldRow` to `newRow` is admitted iff the old row is
visible under some applicable policy's USING and the new row passes some
applicable policy's WITH CHECK. -/
def updateAllowed {Row : Type} (ps : List (Policy Row)) (db : DB)
    (uid : Option Uid) (oldRow newRow : Row) : Bool :=
  usingAllowed ps .update db uid oldRow && checkAllowed ps .update db uid newRow

/-- Final RLS policies on `public.profiles` (the profiles policy-fix migration
drops the earlier update policy and leaves exactly these; a policy written
with only USING for ALL/UPDATE gets that expression as its WITH CHECK, and a
SELECT policy has no WITH CHECK of its own). -/
def profilesPolicies : List (Policy Profile) :=
  [ { name := "Allow users to view their own profile"
      cmd := .select
      toAuthenticated := false
      usingPred := fun _ uid row => sqlEqUid uid (some row.id)
      checkPred := fun _ _ _ => true },
    { name := "Allow users to insert their own profile"
      cmd := .insert
      toAuthenticated := false
      usingPred := fun _ _ _ => true
      checkPred := fun _ uid row => sqlEqUid uid (some row.id) },
    { name := "Allow users to update their own profile data"
      cmd := .update
      toAuthenticated := false
      usingPred := fun _ uid row => sqlEqUid uid (some row.id)
      checkPred := fun db uid row =>
        sqlEqUid uid (some row.id) && sqlEqStr (some row.role) (get_user_role db uid) },
    { name := "Allow admins to view all profiles"
      cmd := .select
      toAuthenticated := false
      usingPred := fun db uid row =>
        sqlEqUid uid (some row.id) || sqlEqStr (get_user_role db uid) (some "admin")
      checkPred := fun _ _ _ => true } ]

/-- Final RLS policies on `public.tasks` (the security-fix migration drops the
originals and recreates these two; each is FOR ALL with only USING, so the
WITH CHECK side defaults to the same expression). -/
def tasksPolicies : List (Policy TaskRow) :=
  [ { name := "Admins can manage all tasks"
      cmd := .all
      toAuthenticated := true
      usingPred := fun db uid _ => sqlEqStr (get_user_role db uid) (some "admin")
      checkPred := fun db uid _ => sqlEqStr (get_user_role db uid) (some "admin") },
    { name := "Designers can view and update their assigned tasks"
      cmd := .all
      toAuthenticated := true
      usingPred := fun db uid row =>
        sqlEqUid row.assigned_to uid || sqlEqStr (get_user_role db uid) (some "admin")
      checkPred := fun db uid row =>
        sqlEqUid row.assigned_to uid || sqlEqStr (get_user_role db uid) (some "admin") } ]

/-- Split a character list at every '/' (the segments of an object path). -/
def splitSlash : List Char → List (List Char)
  | [] => [[]]
  | c :: cs =>
      if c = '/' then [] :: splitSlash cs
      else
        match splitSlash cs with
        | [] => [[c]]
        | s :: ss => (c :: s) :: ss

/-- Function `storage.foldername(name)`: the `/`-separated segments of an object path
without the final (file-name) component; indexing past its end is NULL. -/
def foldername (name : String) : List String :=
  ((splitSlash name.data).map (fun cs => String.mk cs)).dropLast

/-- RLS policies on `storage.objects` relevant to the designs bucket: the four
per-owner policies from the storage migration plus the reference-image upload
policy added by the tasks migration. -/
def storagePolicies : List (Policy StorageObject) :=
  [ { name := "Allow authenticated users to upload their own design files"
      cmd := .insert
      toAuthenticated := true
      usingPred := fun _ _ _ => true
      checkPred := fun _ uid obj =>
        obj.bucket_id == "designs" &&
          sqlEqStr (uid.map toString) (foldername obj.name).head? },
    { name := "Allow users to view design files"
      cmd := .select
      toAuthenticated := true
      usingPred := fun _ _ obj => obj.bucket_id == "designs"
      checkPred := fun _ _ _ => true },
    { name := "Allow users to update their own design files"
      cmd := .update
      toAuthenticated := true
      usingPred := fun _ uid obj =>
        obj.bucket_id == "designs" &&
          sqlEqStr (uid.map toString) (foldername obj.name).head?
      checkPred := fun _ uid obj =>
        obj.bucket_id == "designs" &&
          sqlEqStr (uid.map toString) (foldername obj.name).head? },
    { name := "Allow users to delete their own design files"
      cmd := .delete
      toAuthenticated := true
      usingPred := fun _ uid obj =>
        obj.bucket_id == "designs" &&
          sqlEqStr (uid.map toString) (foldername obj.name).head?
      checkPred := fun _ _ _ => true },
    { name := "Allow authenticated users to upload reference images"
      cmd := .insert
      toAuthenticated := true
      usingPred := fun _ _ _ => true
      checkPred := fun _ _ obj => obj.bucket_id == "designs" } ]

/-- The WITH CHECK predicate of the "upload their own design files" storage
policy taken alone (path ownership: the first path segment must equal the
uploader's id rendered as text). -/
def ownDesignFilesCheck (uid : Uid) (obj : StorageObject) : Bool :=
  obj.bucket_id == "designs" &&
    sqlEqStr (some (toString uid)) (foldername obj.name).head?

/-- Statement `DROP POLICY IF EXISTS n`: remove any policy named `n`. -/
def dropPolicy {Row : Type} (n : String) (ps : List (Policy Row)) :
    List (Policy Row) :=
  ps.filter (fun p => p.name != n)

/-- Statement `CREATE POLICY`: add a policy to the table's policy list. -/
def createPolicy {Row : Type} (p : Policy Row) (ps : List (Policy Row)) :
    List (Policy Row) :=
  ps ++ [p]

/-- Policy "Allow everyone to view all designs": SELECT with no TO clause and
`USING (true)` — it covers anonymous requests as well. -/
def viewAllDesignsPolicy : Policy Design :=
  { name := "Allow everyone to view all designs"
    cmd := .select
    toAuthenticated := false
    usingPred := fun _ _ _ => true
    checkPred := fun _ _ _ => true }

/-- Policy "Allow authenticated users to insert their own designs". -/
def insertOwnDesignsPolicy : Policy Design :=
  { name := "Allow authenticated users to insert their own designs"
    cmd := .insert
    toAuthenticated := true
    usingPred := fun _ _ _ => true
    checkPred := fun _ uid row => sqlEqUid uid (some row.user_id) }

/-- Policy "Users can update their own designs". -/
def updateOwnDesignsPolicy : Policy Design :=
  { name := "Users can update their own designs"
    cmd := .update
    toAuthenticated := true
    usingPred := fun _ uid row => sqlEqUid uid (some row.user_id)
    checkPred := fun _ uid row => sqlEqUid uid (some row.user_id) }

/-- Policy "Users can delete their own designs". -/
def deleteOwnDesignsPolicy : Policy Design :=
  { name := "Users can delete their own designs"
    cmd := .delete
    toAuthenticated := true
    usingPred := fun _ uid row => sqlEqUid uid (some row.user_id)
    checkPred := fun _ _ _ => true }

/-- The final designs migration ("make designs table publicly accessible"):
drop every existing designs policy by name, then create the public-access
set. Applied to whatever policy list the earlier migrations left. -/
def designsMigrationFinal (ps : List (Policy Design)) : List (Policy Design) :=
  createPolicy deleteOwnDesignsPolicy
    (createPolicy updateOwnDesignsPolicy
      (createPolicy insertOwnDesignsPolicy
        (createPolicy viewAllDesignsPolicy
          (dropPolicy "Allow authenticated users to insert their own designs"
            (dropPolicy "Admins can manage all designs"
              (dropPolicy "Users can delete their own designs"
                (dropPolicy "Users can update their own designs"
                  (dropPolicy "Admins can view all designs"
                    (dropPolicy "Users can view their own designs" ps)))))))))

/-- Handler `updateTaskStatus` in the admin dashboard: set `status` on the matching
row, adding `completed_at` only when the new status is 'completed'; the
table's `updated_at` trigger fires on every update. -/
def adminUpdateTaskStatus (db : DB) (now : Nat) (taskId : Nat)
    (newStatus : String) : DB :=
  { db with tasks := db.tasks.map (fun t =>
      if t.id == taskId then
        if newStatus == "completed" then
          { t with status := newStatus, completed_at := some now, updated_at := now }
        else
          { t with status := newStatus, updated_at := now }
      else t) }

/-- The status values the admin dashboard's task-card buttons can submit for a
task currently in `status`: both buttons are hidden once the task is
completed, and the start button is disabled while it is in progress. -/
def adminUiStatusTargets (status : String) : List String :=
  if status == "completed" then []
  else if status == "in_progress" then ["completed"]
  else ["in_progress", "completed"]

/-- The status values the designer dashboard's task-card controls can submit:
the start button (to 'in_progress') is hidden once completed and disabled
while in progress, and the completion flow is offered only while the task is
in progress. -/
def designerUiStatusTargets (status : String) : List String :=
  if status == "completed" then []
  else if status == "in_progress" then ["completed"]
  else ["in_progress"]

/-- Position of a status in the pending → in_progress → completed order. -/
def statusRank (s : String) : Nat :=
  if s == "in_progress" then 1
  else if s == "completed" then 2
  else 0

/-- The completion message built by the designer dashboard. -/
def taskCompletedMessage (taskTitle designerName : String) : String :=
  "تم إكمال المهمة \"" ++ taskTitle ++ "\" بواسطة " ++ designerName

/-- Handler `updateTaskStatus` in the designer dashboard: update the matching task row
(adding `completed_at` and `completed_design_url` when the new status is
'completed'), then, on completion, look the task up in the fetched list and
call `send_notification` addressed to its `assigned_by` with type
'task_completed'. -/
def designerUpdateTaskStatus (db : DB) (now : Nat) (designerName : String)
    (taskId : Nat) (newStatus : String) (completedDesignUrl : Option String) :
    DB :=
  let db1 : DB := { db with tasks := db.tasks.map (fun t =>
      if t.id == taskId then
        if newStatus == "completed" then
          { t with status := newStatus, completed_at := some now,
                   completed_design_url := completedDesignUrl, updated_at := now }
        else
          { t with status := newStatus, updated_at := now }
      else t) }
  if newStatus == "completed" then
    match db.tasks.find? (fun t => t.id == taskId) with
    | some task =>
        (send_notification db1 now task.assigned_by "تم إكمال المهمة"
          (taskCompletedMessage task.title designerName) "task_completed"
          (some taskId)).1
    | none => db1
  else db1

/-- Handler `uploadCompletedDesign`: the completed artifact is stored in the designs
bucket at `completed/<uid>/<timestamp>.<ext>` and its public URL (here, the
object path) is returned. -/
def uploadCompletedDesign (uid : Uid) (now : Nat) (fileExt : String) : String :=
  "completed/" ++ toString uid ++ "/" ++ toString now ++ "." ++ fileExt

/-- Handler `handleCompleteTask` in the designer dashboard: with no completed file
selected it shows an error toast and aborts; otherwise it uploads the
artifact and updates the task to 'completed' carrying the artifact URL.
The selected file is represented by its extension. -/
def handleCompleteTask (db : DB) (now : Nat) (designerUid : Uid)
    (designerName : String) (taskId : Nat) (completedFile : Option String) :
    DB :=
  match completedFile with
  | none => db
  | some fileExt =>
      let url := uploadCompletedDesign designerUid now fileExt
      designerUpdateTaskStatus db now designerName taskId "completed" (some url)

/-- Test fixture: the profile row of an admin with id 1. -/
def adminProfile : Profile := { id := 1, role := "admin", updated_at := 0 }

/-- Test fixture: the profile row of a designer with id 2. -/
def designerProfile : Profile := { id := 2, role := "designer", updated_at := 0 }

/-- Test fixture: a task assigned by admin 1 to designer 2, in progress. -/
def taskFix : TaskRow :=
  { id := 10, title := "شعار", description := none, reference_image_url := none,
    assigned_to := some 2, assigned_by := 1, status := "in_progress",
    priority := "medium", due_date := none, completed_design_url := none,
    completed_at := none, created_at := 0, updated_at := 0 }

/-- Test fixture database: the two profiles and the one task. -/
def dbFix : DB :=
  { profiles := [adminProfile, designerProfile], notifications := [],
    tasks := [taskFix], designs := [], nextNotifId := 0 }

/-- Claim C1: when the caller's stored role is not 'admin', `update_user_role`
raises the authorization error before any row is mutated: the call returns no
success indicator and the transaction leaves the database — in particular the
target's role and the notifications table — unchanged. -/
theorem update_user_role_nonadmin_rejected (db : DB) (now : Nat) (caller : Uid)
    (p : Profile) (target : Uid) (new_role : String)
    (hfind : db.profiles.find? (fun q => q.id == caller) = some p)
    (hrole : p.role ≠ "admin") :
    update_user_role db now (some caller) target new_role = .error .notAdmin ∧
      runRoleUpdateTx db now (some caller) target new_role = (db, none) := by
  have hcond : sqlNeStr
      ((db.profiles.find? (fun q => q.id == caller)).map (fun q => q.role))
      "admin" = true := by
    rw [hfind]
    simpa [sqlNeStr] using hrole
  refine ⟨?_, ?_⟩
  · simp [update_user_role, hcond]
  · simp [runRoleUpdateTx, update_user_role, hcond]

/-- Witness for C1: the designer (id 2) calling `update_user_role` on the
fixture database is rejected and the database is untouched. -/
theorem update_user_role_nonadmin_rejected_witness :
    update_user_role dbFix 5 (some 2) 1 "designer" = .error .notAdmin ∧
      runRoleUpdateTx dbFix 5 (some 2) 1 "designer" = (dbFix, none) :=
  update_user_role_nonadmin_rejected dbFix 5 2 designerProfile 1 "designer"
    (by decide) (by decide)

/-- The row transform `update_user_role` applies to profiles preserves `id`. -/
theorem roleUpd_id (t : Uid) (r : String) (now : Nat) (q : Profile) :
    (if q.id == t then { q with role := r, updated_at := now } else q).id = q.id := by
  split <;> rfl

/-- Profile lookup commutes with the role-update map (the map preserves ids). -/
theorem find?_roleUpdateMap (ps : List Profile) (t : Uid) (r : String)
    (now : Nat) (u : Uid) :
    (ps.map (fun p =>
        if p.id == t then { p with role := r, updated_at := now } else p)).find?
        (fun p => p.id == u) =
      (ps.find? (fun p => p.id == u)).map (fun p =>
        if p.id == t then { p with role := r, updated_at := now } else p) := by
  rw [List.find?_map]
  have hfun : ((fun p : Profile => p.id == u) ∘ fun p =>
      if p.id == t then { p with role := r, updated_at := now } else p) =
      (fun p : Profile => p.id == u) := by
    funext q
    by_cases hq : q.id = t <;> simp [Function.comp, hq]
  rw [hfun]

/-- The committed database state of a successful `update_user_role` call:
the target's role and `updated_at` are set and the audit notification is
appended, in one transaction. -/
def roleUpdateCommit (db : DB) (now : Nat) (target : Uid) (r : String) : DB :=
  { db with
      profiles := db.profiles.map (fun p =>
        if p.id == target then { p with role := r, updated_at := now } else p)
      notifications :=
        db.notifications ++ [roleUpdateNotif db.nextNotifId now target r]
      nextNotifId := db.nextNotifId + 1 }

/-- When the admin check does not raise and the new role is in the allowed
set, `update_user_role` commits and returns true. -/
theorem update_user_role_commit (db : DB) (now : Nat) (caller target : Uid)
    (new_role : String)
    (hcond : sqlNeStr ((db.profiles.find? (fun q => q.id == caller)).map
      (fun q => q.role)) "admin" = false)
    (hvalid : (!(new_role == "admin" || new_role == "designer")) = false) :
    update_user_role db now (some caller) target new_role =
      .ok (roleUpdateCommit db now target new_role, true) := by
  simp [update_user_role, roleUpdateCommit, hcond, hvalid]

/-- Claim C2: an authenticated caller with no profile row reads role NULL in
`update_user_role`; `NULL != 'admin'` is not true, so the admin check does not
raise, and for a new_role in the allowed set the call commits, returns true,
and sets the target's stored role to new_role. -/
theorem update_user_role_profileless_caller (db : DB) (now : Nat)
    (caller target : Uid) (tp : Profile) (new_role : String)
    (hnone : db.profiles.find? (fun q => q.id == caller) = none)
    (htarget : db.profiles.find? (fun q => q.id == target) = some tp)
    (hrole : new_role = "admin" ∨ new_role = "designer") :
    (runRoleUpdateTx db now (some caller) target new_role).2 = some true ∧
      get_user_role (runRoleUpdateTx db now (some caller) target new_role).1
        (some target) = some new_role := by
  have hcond : sqlNeStr
      ((db.profiles.find? (fun q => q.id == caller)).map (fun q => q.role))
      "admin" = false := by
    rw [hnone]; rfl
  have hvalid : (!(new_role == "admin" || new_role == "designer")) = false := by
    rcases hrole with h | h <;> simp [h]
  have hid : tp.id = target := by
    simpa using List.find?_some htarget
  have hrun := update_user_role_commit db now caller target new_role hcond hvalid
  constructor
  · simp [runRoleUpdateTx, hrun]
  · simp only [runRoleUpdateTx, hrun]
    simp only [get_user_role, roleUpdateCommit]
    rw [find?_roleUpdateMap, htarget]
    simp [hid]

/-- Witness for C2: caller id 3 has no profile in the fixture database, yet
the call succeeds and flips designer 2 to admin. -/
theorem update_user_role_profileless_caller_witness :
    (runRoleUpdateTx dbFix 7 (some 3) 2 "admin").2 = some true ∧
      get_user_role (runRoleUpdateTx dbFix 7 (some 3) 2 "admin").1 (some 2) =
        some "admin" :=
  update_user_role_profileless_caller dbFix 7 3 2 designerProfile "admin"
    (by decide) (by decide) (Or.inl rfl)

/-- Claim C3: with an admin caller, `update_user_role` with new_role 'owner'
raises the validation error; the failing transaction rolls back, leaving the
database (the target's role and the notifications table) unchanged; and any
committing call applies the role update and the notification insert together
while returning true. -/
theorem update_user_role_owner_invalid (db : DB) (now : Nat)
    (caller target : Uid)
    (hadmin : get_user_role db (some caller) = some "admin") :
    update_user_role db now (some caller) target "owner" =
        .error (.invalidRole "owner") ∧
      runRoleUpdateTx db now (some caller) target "owner" = (db, none) ∧
      (∀ r db' b,
        update_user_role db now (some caller) target r = .ok (db', b) →
          b = true ∧
            db'.profiles = db.profiles.map (fun p =>
              if p.id == target then { p with role := r, updated_at := now }
              else p) ∧
            db'.notifications =
              db.notifications ++ [roleUpdateNotif db.nextNotifId now target r]) := by
  have hfind : (db.profiles.find? (fun p => p.id == caller)).map
      (fun p => p.role) = some "admin" := by
    simpa [get_user_role] using hadmin
  refine ⟨?_, ?_, ?_⟩
  · simp [update_user_role, hfind, sqlNeStr]
  · simp [runRoleUpdateTx, update_user_role, hfind, sqlNeStr]
  · intro r db' b h
    simp only [update_user_role, hfind] at h
    rw [show sqlNeStr (some "admin") "admin" = false from rfl] at h
    simp only [Bool.false_eq_true, if_false] at h
    split at h
    · exact absurd h (by simp)
    · simp only [Except.ok.injEq, Prod.mk.injEq] at h
      obtain ⟨hdb, hb⟩ := h
      subst hdb
      exact ⟨hb.symm, rfl, rfl⟩

/-- Witness for C3: the admin (id 1) calling with 'owner' on the fixture
database hits the validation error and the database is untouched. -/
theorem update_user_role_owner_invalid_witness :
    update_user_role dbFix 9 (some 1) 2 "owner" =
        .error (.invalidRole "owner") ∧
      runRoleUpdateTx dbFix 9 (some 1) 2 "owner" = (dbFix, none) :=
  ⟨(update_user_role_owner_invalid dbFix 9 1 2 (by decide)).1,
   (update_user_role_owner_invalid dbFix 9 1 2 (by decide)).2.1⟩

/-- SQL equality against a non-NULL string is false when the left side is NULL
or holds a different value. -/
theorem sqlEqStr_ne (a : Option String) (b : String) (h : a ≠ some b) :
    sqlEqStr a (some b) = false := by
  cases a with
  | none => rfl
  | some x =>
      have hx : x ≠ b := fun hx => h (by rw [hx])
      simp [sqlEqStr, hx]

/-- SQL equality against a non-NULL uuid is false when the left side is NULL
or holds a different value. -/
theorem sqlEqUid_ne (a : Option Uid) (u : Uid) (h : a ≠ some u) :
    sqlEqUid a (some u) = false := by
  cases a with
  | none => rfl
  | some x =>
      have hx : x ≠ u := fun hx => h (by rw [hx])
      simp [sqlEqUid, hx]

/-- Claim C4: under the profiles update policy, a self-update whose new row
carries a role different from the caller's stored role is rejected, and every
self-update the policy admits preserves the role column. -/
theorem profiles_self_update_role_frozen (db : DB) (p : Uid)
    (oldRow newRow : Profile) (r : String)
    (hstored : get_user_role db (some p) = some r) :
    (newRow.role ≠ r →
      updateAllowed profilesPolicies db (some p) oldRow newRow = false) ∧
    (updateAllowed profilesPolicies db (some p) oldRow newRow = true →
      newRow.role = r) := by
  constructor
  · intro hne
    simp [updateAllowed, usingAllowed, checkAllowed, profilesPolicies,
      cmdApplies, roleApplies, sqlEqUid, sqlEqStr, hstored, hne]
  · intro hallow
    simp [updateAllowed, usingAllowed, checkAllowed, profilesPolicies,
      cmdApplies, roleApplies, sqlEqUid, sqlEqStr, hstored] at hallow
    exact hallow.2.2

/-- Witness for C4: designer 2 attempting to write role 'admin' into their own
profile row is rejected by the update policy. -/
theorem profiles_self_update_role_frozen_witness :
    updateAllowed profilesPolicies dbFix (some 2) designerProfile
      { id := 2, role := "admin", updated_at := 0 } = false :=
  (profiles_self_update_role_frozen dbFix 2 designerProfile
      { id := 2, role := "admin", updated_at := 0 } "designer"
      (by decide)).1 (by decide)

/-- Counterexample to claim C5 as stated: designer 2 inserts an object into
the designs bucket at path "1/logo.png", whose first segment is another
principal's id, and the storage insert policies admit it — the
reference-images insert policy checks only the bucket, and permissive
policies combine by OR. -/
theorem storage_insert_foreign_prefix_allowed :
    insertAllowed storagePolicies dbFix (some 2)
      { bucket_id := "designs", name := "1/logo.png" } = true := by
  decide

/-- Claim C5 amended: every authenticated insert into the designs bucket is
admitted regardless of the path's first segment (the reference-images policy
ORs in); the first-segment ownership restriction holds only of the
"upload their own design files" policy taken by itself, whose check fails
whenever the first segment differs from the uploader's id. -/
theorem storage_insert_designs_bucket (db : DB) (uid : Uid)
    (obj : StorageObject) (hbucket : obj.bucket_id = "designs") :
    insertAllowed storagePolicies db (some uid) obj = true ∧
      ((foldername obj.name).head? ≠ some (toString uid) →
        ownDesignFilesCheck uid obj = false) := by
  constructor
  · simp [insertAllowed, checkAllowed, storagePolicies, cmdApplies,
      roleApplies, hbucket]
  · intro hne
    cases hh : (foldername obj.name).head? with
    | none => simp [ownDesignFilesCheck, sqlEqStr, hh]
    | some s =>
        have hs : toString uid ≠ s := by
          intro h
          exact hne (by rw [hh, h])
        simp [ownDesignFilesCheck, sqlEqStr, hh, hbucket, hs]

/-- Witness for C5 (amended): the completed-artifact path the designer
dashboard itself uses, `completed/2/a.png`, is not prefixed by the uploader's
id, fails the own-files check, and is still admitted. -/
theorem storage_insert_designs_bucket_witness :
    insertAllowed storagePolicies dbFix (some 2)
        { bucket_id := "designs", name := "completed/2/a.png" } = true ∧
      ownDesignFilesCheck 2
        { bucket_id := "designs", name := "completed/2/a.png" } = false :=
  ⟨(storage_insert_designs_bucket dbFix 2
      { bucket_id := "designs", name := "completed/2/a.png" } rfl).1,
   (storage_insert_designs_bucket dbFix 2
      { bucket_id := "designs", name := "completed/2/a.png" } rfl).2 (by decide)⟩

/-- Claim C6: a principal that is neither the task's assigned_to designer nor
an admin per its stored role is denied any update to that task (no task
policy makes the row pass), while the assigned designer or an admin passes
the task policies for updates that keep the assignment. -/
theorem tasks_update_authorization (db : DB) (uid : Uid) (t : TaskRow) :
    ((t.assigned_to ≠ some uid ∧ get_user_role db (some uid) ≠ some "admin") →
      ∀ t', updateAllowed tasksPolicies db (some uid) t t' = false) ∧
    ((t.assigned_to = some uid ∨ get_user_role db (some uid) = some "admin") →
      ∀ t', t'.assigned_to = t.assigned_to →
        updateAllowed tasksPolicies db (some uid) t t' = true) := by
  constructor
  · rintro ⟨hne, hrole⟩ t'
    simp [updateAllowed, usingAllowed, checkAllowed, tasksPolicies,
      cmdApplies, roleApplies, sqlEqUid_ne _ _ hne, sqlEqStr_ne _ _ hrole]
  · rintro (hmine | hadmin) t' hsame
    · simp [updateAllowed, usingAllowed, checkAllowed, tasksPolicies,
        cmdApplies, roleApplies, sqlEqUid, hmine, hsame]
    · simp [updateAllowed, usingAllowed, checkAllowed, tasksPolicies,
        cmdApplies, roleApplies, sqlEqStr, hadmin]

/-- Witness for C6: designer 2 may update their assigned task, while an
unrelated designer 3 is denied. -/
theorem tasks_update_authorization_witness :
    updateAllowed tasksPolicies dbFix (some 3) taskFix
        { taskFix with status := "completed" } = false ∧
      updateAllowed tasksPolicies dbFix (some 2) taskFix
        { taskFix with status := "completed" } = true :=
  ⟨(tasks_update_authorization dbFix 3 taskFix).1 (by decide)
      { taskFix with status := "completed" },
   (tasks_update_authorization dbFix 2 taskFix).2 (by decide)
      { taskFix with status := "completed" } rfl⟩

/-- Test fixture: the fixture task completed. -/
def taskDoneFix : TaskRow :=
  { taskFix with status := "completed", completed_at := some 3,
                 completed_design_url := some "completed/2/3.png" }

/-- Test fixture: the fixture task still pending. -/
def taskPendingFix : TaskRow := { taskFix with status := "pending" }

/-- Counterexample to claim C7 as stated: the task policies authorize admin 1
to update the completed fixture task back to status 'pending' — an authorized
update moving the status from a later state to an earlier one, so authorized
update sequences are not monotonic forward. -/
theorem task_status_backward_authorized :
    updateAllowed tasksPolicies dbFix (some 1) taskDoneFix
        { taskDoneFix with status := "pending" } = true ∧
      statusRank "pending" < statusRank "completed" := by
  decide

/-- Claim C7 amended: the transitions the dashboards themselves can issue are
monotonic forward — every status a task-card control submits ranks strictly
above the task's current status in the pending → in_progress → completed
order — but the backend does not enforce monotonicity on direct updates. -/
theorem ui_status_transitions_forward (s t : String) :
    (t ∈ adminUiStatusTargets s → statusRank s < statusRank t) ∧
    (t ∈ designerUiStatusTargets s → statusRank s < statusRank t) := by
  constructor <;> intro ht
  · by_cases h1 : s = "completed"
    · subst h1
      simp [adminUiStatusTargets] at ht
    · by_cases h2 : s = "in_progress"
      · subst h2
        simp [adminUiStatusTargets] at ht
        subst ht
        decide
      · simp [adminUiStatusTargets, h1, h2] at ht
        rcases ht with rfl | rfl <;> simp [statusRank, h1, h2]
  · by_cases h1 : s = "completed"
    · subst h1
      simp [designerUiStatusTargets] at ht
    · by_cases h2 : s = "in_progress"
      · subst h2
        simp [designerUiStatusTargets] at ht
        subst ht
        decide
      · simp [designerUiStatusTargets, h1, h2] at ht
        subst ht
        simp [statusRank, h1, h2]

/-- Witness for C7 (amended): the admin dashboard's start button on a pending
task moves the status strictly forward. -/
theorem ui_status_transitions_forward_witness :
    statusRank "pending" < statusRank "in_progress" :=
  (ui_status_transitions_forward "pending" "in_progress").1 (by decide)

/-- Claim C8: the admin dashboard offers the 'completed' button on a pending
task, the task policies place no constraint on the status column so the admin
is authorized to set a pending task straight to 'completed', and the admin
handler writes exactly that row (status and `completed_at`). -/
theorem pending_to_completed_direct (db : DB) (uid : Uid) (t : TaskRow)
    (now : Nat)
    (hadmin : get_user_role db (some uid) = some "admin")
    (hpending : t.status = "pending") :
    "completed" ∈ adminUiStatusTargets t.status ∧
      updateAllowed tasksPolicies db (some uid) t
        { t with status := "completed", completed_at := some now,
                 updated_at := now } = true ∧
      (adminUpdateTaskStatus db now t.id "completed").tasks =
        db.tasks.map (fun x =>
          if x.id == t.id then
            { x with status := "completed", completed_at := some now,
                     updated_at := now }
          else x) := by
  refine ⟨?_, ?_, ?_⟩
  · rw [hpending]; decide
  · simp [updateAllowed, usingAllowed, checkAllowed, tasksPolicies,
      cmdApplies, roleApplies, sqlEqStr, hadmin]
  · simp [adminUpdateTaskStatus]

/-- Witness for C8: admin 1 takes the pending fixture task straight to
completed. -/
theorem pending_to_completed_direct_witness :
    "completed" ∈ adminUiStatusTargets taskPendingFix.status ∧
      updateAllowed tasksPolicies dbFix (some 1) taskPendingFix
        { taskPendingFix with status := "completed", completed_at := some 5,
                              updated_at := 5 } = true :=
  ⟨(pending_to_completed_direct dbFix 1 taskPendingFix 5 (by decide) rfl).1,
   (pending_to_completed_direct dbFix 1 taskPendingFix 5 (by decide) rfl).2.1⟩

/-- Claim C9: the designer completion flow requires a completed-design
artifact — with no file selected `handleCompleteTask` aborts and changes
nothing — and with one it updates the task to 'completed' setting
`completed_at` and `completed_design_url` to the uploaded artifact's URL, and
inserts, via `send_notification`, a notification of type 'task_completed'
addressed to the task's `assigned_by` admin. -/
theorem designer_completion_flow (db : DB) (now : Nat) (duid : Uid)
    (designerName : String) (tid : Nat) (t : TaskRow) (ext : String)
    (hfind : db.tasks.find? (fun x => x.id == tid) = some t) :
    handleCompleteTask db now duid designerName tid none = db ∧
      (handleCompleteTask db now duid designerName tid (some ext)).tasks =
        db.tasks.map (fun x =>
          if x.id == tid then
            { x with status := "completed", completed_at := some now,
                     completed_design_url := some (uploadCompletedDesign duid now ext),
                     updated_at := now }
          else x) ∧
      (handleCompleteTask db now duid designerName tid (some ext)).notifications =
        db.notifications ++
          [{ id := db.nextNotifId, user_id := t.assigned_by,
             title := "تم إكمال المهمة",
             message := taskCompletedMessage t.title designerName,
             type := "task_completed", read := false, task_id := some tid,
             created_at := now }] := by
  refine ⟨rfl, ?_, ?_⟩
  · simp [handleCompleteTask, designerUpdateTaskStatus, send_notification, hfind]
  · simp [handleCompleteTask, designerUpdateTaskStatus, send_notification, hfind]

/-- Witness for C9: designer 2 completes the in-progress fixture task. -/
theorem designer_completion_flow_witness :
    handleCompleteTask dbFix 5 2 "ليلى" 10 none = dbFix ∧
      (handleCompleteTask dbFix 5 2 "ليلى" 10 (some "png")).notifications =
        dbFix.notifications ++
          [{ id := dbFix.nextNotifId, user_id := taskFix.assigned_by,
             title := "تم إكمال المهمة",
             message := taskCompletedMessage taskFix.title "ليلى",
             type := "task_completed", read := false, task_id := some 10,
             created_at := 5 }] :=
  ⟨(designer_completion_flow dbFix 5 2 "ليلى" 10 taskFix "png" (by decide)).1,
   (designer_completion_flow dbFix 5 2 "ليلى" 10 taskFix "png" (by decide)).2.2⟩

/-- Claim C10: after the final designs migration, a SELECT on designs is
allowed for every request — anonymous included — whatever policy list the
earlier migrations left and whatever the row, because the migration installs
"Allow everyone to view all designs" with USING (true) and no role
restriction. -/
theorem designs_select_open_after_final_migration
    (prior : List (Policy Design)) (db : DB) (uid : Option Uid) (row : Design) :
    selectAllowed (designsMigrationFinal prior) db uid row = true := by
  simp [designsMigrationFinal, createPolicy, dropPolicy, selectAllowed,
    usingAllowed, cmdApplies, roleApplies, viewAllDesignsPolicy,
    insertOwnDesignsPolicy, updateOwnDesignsPolicy, deleteOwnDesignsPolicy,
    List.any_append]
